import Mathlib

/-!
Shallow embedding of the request-gating core of the `talkify` backend
(token verification, denylist semantics, identity resolution, tier-to-quota
resolution, and the fixed-window rate-limit counter), together with proofs
of the specified properties.

Sources embedded:
  * `src/app/core/security.py` — `verify_token`, `authenticate_user`,
    `blacklist_token`, `blacklist_tokens`;
  * `src/app/api/dependencies.py` — `get_current_user`, `get_optional_user`,
    `rate_limiter_dependency`;
  * `src/app/api/v1/logout.py` — `logout`;
  * `src/app/api/v1/users.py` — `erase_user`;
  * `src/app/core/setup.py` — `lifespan_factory` startup ordering;
  * `src/app/core/config.py` — `DefaultRateLimitSettings`.

The Redis counter (`core/utils/rate_limit.py`) and the token-blacklist store
(`core/db/crud_token_blacklist.py`) are not among the available sources; those
two collaborators are modelled from the specification, as marked on each
definition.
-/

namespace Talkify

/-- Token type tag (`TokenType` in `core/security.py`): access or refresh. -/
inductive TokenType where
  | access
  | refresh
deriving Repr, DecidableEq

/-- String value of a token type, as stored in the `token_type` JWT claim. -/
def TokenType.toStr : TokenType → String
  | .access => "access"
  | .refresh => "refresh"

/-- Decoded JWT payload: the claims the gate reads (`sub`, `token_type`,
`exp`). Each is optional, mirroring `payload.get(...)` on a Python dict. -/
structure Payload where
  sub : Option String
  token_type : Option String
  exp : Option Int
deriving Repr, DecidableEq

/-- A `jose.JWTError` raised by `jwt.decode` (bad signature, malformed token,
or expired signature). -/
structure JWTError where
  msg : String
deriving Repr, DecidableEq

/-- `TokenData` from `core/schemas.py`: the verified subject. -/
structure TokenData where
  username_or_email : String
deriving Repr, DecidableEq

/-- A decode oracle standing for `jwt.decode(token, SECRET_KEY, ALGORITHM)`:
returns the payload, or an error when the signature is invalid or the token
is expired or malformed. -/
def JWTDecode := String → Except JWTError Payload

/-- User row, restricted to the columns the gate reads. -/
structure User where
  id : Nat
  username : String
  email : String
  hashed_password : String
  is_deleted : Bool
  is_superuser : Bool
  tier_id : Option Nat
deriving Repr, DecidableEq

/-- Tier row, restricted to the columns the gate reads. -/
structure Tier where
  id : Nat
  name : String
deriving Repr, DecidableEq

/-- Rate-limit rule row (`rate_limits` table): quota for a (tier, path). -/
structure RateLimitRule where
  tier_id : Nat
  path : String
  limit : Nat
  period : Nat
deriving Repr, DecidableEq

/-- Denylist entry: raw token string plus expiry timestamp. -/
structure TokenBlacklistEntry where
  token : String
  expires_at : Int
deriving Repr, DecidableEq

/-- Database state visible to the gate. -/
structure DB where
  users : List User
  tiers : List Tier
  rate_limits : List RateLimitRule
  token_blacklist : List TokenBlacklistEntry
deriving Repr, DecidableEq

/-- Modelled from the spec: the Denylist Store membership check
(`crud_token_blacklist.exists(db, token=token)`, whose implementation is not
among the available sources): existence check by raw token string. -/
def blacklist_contains (bl : List TokenBlacklistEntry) (token : String) : Bool :=
  bl.any (fun e => e.token == token)

/-- Modelled from the spec: the Denylist Store `add` operation
(`crud_token_blacklist.create`, whose implementation is not among the
available sources): idempotent insert keyed by the raw token string —
inserting an already-present token is a no-op, not an error. -/
def blacklist_insert (bl : List TokenBlacklistEntry) (token : String)
    (expires_at : Int) : List TokenBlacklistEntry :=
  if blacklist_contains bl token then bl else bl ++ [⟨token, expires_at⟩]

/-- `crud_users.get(db, email=e, is_deleted=False)`: first user row with the
given email that is not soft-deleted. -/
def crud_users_get_by_email (db : DB) (e : String) : Option User :=
  db.users.find? (fun u => u.email == e && u.is_deleted == false)

/-- `crud_users.get(db, username=n, is_deleted=False)`: first user row with
the given username that is not soft-deleted. -/
def crud_users_get_by_username (db : DB) (n : String) : Option User :=
  db.users.find? (fun u => u.username == n && u.is_deleted == false)

/-- The subject dispatch shared by `get_current_user` (dependencies.py) and
`authenticate_user` (security.py): emails are recognized by containing an
at-sign, otherwise the subject is a username; both lookups exclude
soft-deleted rows. -/
def lookup_subject (db : DB) (username_or_email : String) : Option User :=
  if username_or_email.contains '@' then
    crud_users_get_by_email db username_or_email
  else
    crud_users_get_by_username db username_or_email

/-- `verify_token` from `core/security.py`: the denylist membership check is
performed first; then the token is decoded, and the payload must carry a
subject and the expected `token_type`. Any failure yields `none`, never an
exception. -/
def verify_token (decode : JWTDecode) (db : DB) (token : String)
    (expected_token_type : TokenType) : Option TokenData :=
  if blacklist_contains db.token_blacklist token then
    none
  else
    match decode token with
    | .error _ => none
    | .ok payload =>
      match payload.sub with
      | none => none
      | some username_or_email =>
        if payload.token_type == some expected_token_type.toStr then
          some ⟨username_or_email⟩
        else
          none

/-- Outcome of the mandatory-identity dependency: either the resolved user or
a raised `UnauthorizedException` with its detail message. -/
inductive AuthOutcome where
  | unauthorized (detail : String)
  | ok (user : User)
deriving Repr, DecidableEq

/-- `get_current_user` from `api/dependencies.py`: verify the access token,
then look the subject up (by email when it contains an at-sign, else by
username, excluding soft-deleted rows); a missing user raises the same
`UnauthorizedException` as a failed verification. -/
def get_current_user (decode : JWTDecode) (db : DB) (token : String) :
    AuthOutcome :=
  match verify_token decode db token TokenType.access with
  | none => .unauthorized "User not authenticated."
  | some token_data =>
    match lookup_subject db token_data.username_or_email with
    | some user => .ok user
    | none => .unauthorized "User not authenticated."

/-- `authenticate_user` from `core/security.py`: subject lookup (excluding
soft-deleted rows) followed by a password check; `none` models the Python
`False` return. The bcrypt check is an opaque oracle `verify_pw`. -/
def authenticate_user (verify_pw : String → String → Bool) (db : DB)
    (username_or_email password : String) : Option User :=
  match lookup_subject db username_or_email with
  | none => none
  | some db_user =>
    if verify_pw password db_user.hashed_password then some db_user else none

/-- A database with the soft-deleted user rows physically absent: used to
state that soft-deleted rows resolve exactly like nonexistent ones. -/
def remove_deleted (db : DB) : DB :=
  { db with users := db.users.filter (fun u => !u.is_deleted) }

lemma find?_filter_not_deleted (l : List User) (q : User → Bool) :
    (l.filter (fun u => !u.is_deleted)).find?
        (fun u => q u && u.is_deleted == false) =
      l.find? (fun u => q u && u.is_deleted == false) := by
  rw [List.find?_filter]
  congr 1
  funext a
  cases ha : a.is_deleted <;> cases hq : q a <;> simp [ha, hq]

lemma lookup_subject_remove_deleted (db : DB) (s : String) :
    lookup_subject (remove_deleted db) s = lookup_subject db s := by
  unfold lookup_subject crud_users_get_by_email crud_users_get_by_username
    remove_deleted
  by_cases h : s.contains '@' = true
  · rw [if_pos h, if_pos h]
    exact find?_filter_not_deleted db.users (fun u => u.email == s)
  · rw [if_neg h, if_neg h]
    exact find?_filter_not_deleted db.users (fun u => u.username == s)

lemma verify_token_remove_deleted (decode : JWTDecode) (db : DB)
    (token : String) (tt : TokenType) :
    verify_token decode (remove_deleted db) token tt =
      verify_token decode db token tt := rfl

/-- C2: for every token present in the denylist, `verify_token` returns
`none` (Invalid) for every decode oracle — in particular even when the
signature verifies, the expiry is in the future, and the type matches — and
since the result does not depend on `decode` at all, the denylist membership
check decides before any signature verification is consulted. -/
theorem C2_denylist_precedence (decode : JWTDecode) (db : DB) (token : String)
    (expected_token_type : TokenType)
    (hmem : blacklist_contains db.token_blacklist token = true) :
    verify_token decode db token expected_token_type = none := by
  unfold verify_token
  simp [hmem]

theorem C2_denylist_precedence_witness :
    blacklist_contains [⟨"tok", 100⟩] "tok" = true ∧
      verify_token (fun _ => .ok ⟨some "alice", some "access", some 100⟩)
        ⟨[], [], [], [⟨"tok", 100⟩]⟩ "tok" TokenType.access = none :=
  ⟨by decide,
    C2_denylist_precedence (fun _ => .ok ⟨some "alice", some "access", some 100⟩)
      ⟨[], [], [], [⟨"tok", 100⟩]⟩ "tok" TokenType.access (by decide)⟩

/-- C6: soft-deleted identities resolve exactly like nonexistent ones — the
subject lookup, the mandatory identity dependency `get_current_user`, and the
password authenticator `authenticate_user` all return the same outcome on a
database as on the same database with the soft-deleted rows erased, so the
deleted state is never observable as a distinct error. -/
theorem C6_soft_delete_exclusion (decode : JWTDecode)
    (verify_pw : String → String → Bool) (db : DB)
    (token username_or_email password : String) :
    lookup_subject db username_or_email =
        lookup_subject (remove_deleted db) username_or_email
    ∧ get_current_user decode db token =
        get_current_user decode (remove_deleted db) token
    ∧ authenticate_user verify_pw db username_or_email password =
        authenticate_user verify_pw (remove_deleted db) username_or_email
          password := by
  refine ⟨(lookup_subject_remove_deleted db username_or_email).symm, ?_, ?_⟩
  · unfold get_current_user
    rw [verify_token_remove_deleted]
    simp only [lookup_subject_remove_deleted]
  · unfold authenticate_user
    simp only [lookup_subject_remove_deleted]

/-- `blacklist_token` from `core/security.py`: decode the token (a `JWTError`
propagates to the caller), then create a denylist entry only when the payload
carries an `exp` claim; a payload without `exp` is silently skipped. -/
def blacklist_token (decode : JWTDecode) (bl : List TokenBlacklistEntry)
    (token : String) : Except JWTError (List TokenBlacklistEntry) :=
  match decode token with
  | .error e => .error e
  | .ok payload =>
    match payload.exp with
    | none => .ok bl
    | some exp_timestamp => .ok (blacklist_insert bl token exp_timestamp)

/-- `blacklist_tokens` from `core/security.py`: the
`for token in [access_token, refresh_token]` loop, whose body is the same as
`blacklist_token`. The result pairs the raised error (if any) with the store
state at the moment it was raised: an insert already performed for the access
token is not rolled back when decoding the refresh token raises. -/
def blacklist_tokens (decode : JWTDecode) (bl : List TokenBlacklistEntry)
    (access_token refresh_token : String) :
    Option JWTError × List TokenBlacklistEntry :=
  match blacklist_token decode bl access_token with
  | .error e => (some e, bl)
  | .ok bl1 =>
    match blacklist_token decode bl1 refresh_token with
    | .error e => (some e, bl1)
    | .ok bl2 => (none, bl2)

/-- Outcome of the logout endpoint: success message, or the
`UnauthorizedException` raised when a `JWTError` escapes
`blacklist_tokens`. -/
inductive LogoutOutcome where
  | ok (message : String)
  | unauthorized (detail : String)
deriving Repr, DecidableEq

/-- `logout` from `api/v1/logout.py`: blacklist both presented tokens; a
`JWTError` is converted to an `UnauthorizedException` with detail
"Invalid token." (the request body always carries a refresh token once
parsed, so the missing-refresh-token branch is not reachable here). -/
def logout (decode : JWTDecode) (bl : List TokenBlacklistEntry)
    (access_token refresh_token : String) :
    LogoutOutcome × List TokenBlacklistEntry :=
  match blacklist_tokens decode bl access_token refresh_token with
  | (some _, bl1) => (LogoutOutcome.unauthorized "Invalid token.", bl1)
  | (none, bl1) => (LogoutOutcome.ok "Logged out successfully", bl1)

/-- FastCRUD `crud_users.delete(db, username=username)`: soft delete — the
matching rows get their deleted flag set. -/
def crud_users_delete (db : DB) (username : String) : DB :=
  { db with
      users := db.users.map (fun u =>
        if u.username == username then { u with is_deleted := true } else u) }

/-- Outcome of the delete-account endpoint (`erase_user`). -/
inductive EraseOutcome where
  | not_found (detail : String)
  | forbidden
  | jwt_error (e : JWTError)
  | ok (message : String)
deriving Repr, DecidableEq

/-- Result of `erase_user`: outcome plus the database afterwards. -/
structure EraseResult where
  outcome : EraseOutcome
  db : DB
deriving Repr, DecidableEq

/-- `erase_user` from `api/v1/users.py`: look the target user up by username
(no deleted filter at this point), require the caller to be that user,
soft-delete the row, then blacklist only the access token presented via the
Authorization header — the endpoint receives no refresh token. -/
def erase_user (decode : JWTDecode) (db : DB) (current_user : User)
    (username : String) (token : String) : EraseResult :=
  match db.users.find? (fun u => u.username == username) with
  | none => ⟨.not_found "User not found", db⟩
  | some _ =>
    if username != current_user.username then
      ⟨.forbidden, db⟩
    else
      let db1 := crud_users_delete db username
      match blacklist_token decode db1.token_blacklist token with
      | .error e => ⟨.jwt_error e, db1⟩
      | .ok bl1 => ⟨.ok "User deleted", { db1 with token_blacklist := bl1 }⟩

lemma blacklist_contains_insert_self (bl : List TokenBlacklistEntry)
    (t : String) (e : Int) :
    blacklist_contains (blacklist_insert bl t e) t = true := by
  unfold blacklist_insert
  by_cases h : blacklist_contains bl t = true
  · rw [if_pos h]; exact h
  · rw [if_neg h]
    unfold blacklist_contains
    simp [List.any_append]

lemma blacklist_contains_insert_mono (bl : List TokenBlacklistEntry)
    (t t' : String) (e' : Int) (h : blacklist_contains bl t = true) :
    blacklist_contains (blacklist_insert bl t' e') t = true := by
  unfold blacklist_insert
  by_cases h' : blacklist_contains bl t' = true
  · rw [if_pos h']; exact h
  · rw [if_neg h']
    unfold blacklist_contains at h ⊢
    simp [List.any_append, h]

lemma blacklist_insert_of_contains (bl : List TokenBlacklistEntry)
    (t : String) (e : Int) (h : blacklist_contains bl t = true) :
    blacklist_insert bl t e = bl := by
  unfold blacklist_insert
  rw [if_pos h]

/-- Concrete user for concrete evaluations. -/
def alice0 : User := ⟨1, "alice", "alice@example.com", "hp", false, false, none⟩

/-- Concrete database: alice present, empty denylist. -/
def db0 : DB := ⟨[alice0], [], [], []⟩

/-- Concrete decode oracle: access token "A" and refresh token "R" decode to
valid unexpired payloads of the matching types; everything else raises. -/
def decode0 : JWTDecode := fun s =>
  if s == "A" then .ok ⟨some "alice", some "access", some 100⟩
  else if s == "R" then .ok ⟨some "alice", some "refresh", some 200⟩
  else .error ⟨"Invalid token"⟩

/-- Concrete decode oracle whose payloads carry no `exp` claim. -/
def decode_noexp : JWTDecode := fun _ => .ok ⟨some "alice", some "access", none⟩

/-- C7: denylist insertion is idempotent — at the store level, inserting an
already-inserted token (whatever expiry the second insert carries) leaves the
store unchanged; and re-running `blacklist_token` on a store it already
updated is a no-op returning normally, not an error. -/
theorem C7_denylist_add_idempotent (decode : JWTDecode)
    (bl bl1 : List TokenBlacklistEntry) (token : String) (e e' : Int)
    (h : blacklist_token decode bl token = .ok bl1) :
    blacklist_insert (blacklist_insert bl token e) token e' =
        blacklist_insert bl token e
    ∧ blacklist_token decode bl1 token = .ok bl1 := by
  constructor
  · exact blacklist_insert_of_contains _ _ _
      (blacklist_contains_insert_self bl token e)
  · cases hdec : decode token with
    | error e0 => simp [blacklist_token, hdec] at h
    | ok payload =>
      cases hexp : payload.exp with
      | none =>
        simp [blacklist_token, hdec, hexp] at h
        subst h
        simp [blacklist_token, hdec, hexp]
      | some ts =>
        simp [blacklist_token, hdec, hexp] at h
        subst h
        simp [blacklist_token, hdec, hexp,
          blacklist_insert_of_contains _ _ _
            (blacklist_contains_insert_self bl token ts)]

theorem C7_denylist_add_idempotent_witness :
    blacklist_insert (blacklist_insert [] "A" 100) "A" 100 =
        blacklist_insert [] "A" 100
    ∧ blacklist_token decode0 (blacklist_insert [] "A" 100) "A" =
        .ok (blacklist_insert [] "A" 100) :=
  C7_denylist_add_idempotent decode0 [] (blacklist_insert [] "A" 100) "A"
    100 100 rfl

/-- C8: `blacklist_tokens` is not atomic across the two tokens — it processes
the access token first, so when decoding the refresh token raises, the error
propagates with the access denylist entry already created, and that entry
persists in the resulting store. -/
theorem C8_partial_denylist_persists (decode : JWTDecode)
    (bl : List TokenBlacklistEntry) (access_token refresh_token : String)
    (payload : Payload) (ts : Int) (err : JWTError)
    (ha : decode access_token = .ok payload) (hexp : payload.exp = some ts)
    (hr : decode refresh_token = .error err) :
    blacklist_tokens decode bl access_token refresh_token =
        (some err, blacklist_insert bl access_token ts)
    ∧ blacklist_contains
        (blacklist_tokens decode bl access_token refresh_token).2
        access_token = true := by
  have h1 : blacklist_tokens decode bl access_token refresh_token =
      (some err, blacklist_insert bl access_token ts) := by
    simp [blacklist_tokens, blacklist_token, ha, hexp, hr]
  refine ⟨h1, ?_⟩
  rw [h1]
  exact blacklist_contains_insert_self bl access_token ts

theorem C8_partial_denylist_persists_witness :
    blacklist_tokens decode0 [] "A" "bad" =
        (some ⟨"Invalid token"⟩, blacklist_insert [] "A" 100)
    ∧ blacklist_contains (blacklist_tokens decode0 [] "A" "bad").2 "A" =
        true :=
  C8_partial_denylist_persists decode0 [] "A" "bad"
    ⟨some "alice", some "access", some 100⟩ 100 ⟨"Invalid token"⟩
    rfl rfl rfl

/-- C9: a token whose decoded payload lacks an `exp` claim is silently never
denylisted — `blacklist_token` and `blacklist_tokens` return normally with
the store unchanged, and the logout flow reports success while leaving the
denylist untouched, so the token stays usable. -/
theorem C9_missing_exp_claim (decode : JWTDecode)
    (bl : List TokenBlacklistEntry) (access_token refresh_token : String)
    (p q : Payload)
    (h1 : decode access_token = .ok p) (h2 : p.exp = none)
    (h3 : decode refresh_token = .ok q) (h4 : q.exp = none) :
    blacklist_token decode bl access_token = .ok bl
    ∧ blacklist_tokens decode bl access_token refresh_token = (none, bl)
    ∧ logout decode bl access_token refresh_token =
        (LogoutOutcome.ok "Logged out successfully", bl) := by
  simp [blacklist_token, blacklist_tokens, logout, h1, h2, h3, h4]

theorem C9_missing_exp_claim_witness :
    blacklist_token decode_noexp [] "A" = .ok []
    ∧ blacklist_tokens decode_noexp [] "A" "R" = (none, [])
    ∧ logout decode_noexp [] "A" "R" =
        (LogoutOutcome.ok "Logged out successfully", []) :=
  C9_missing_exp_claim decode_noexp [] "A" "R"
    ⟨some "alice", some "access", none⟩ ⟨some "alice", some "access", none⟩
    rfl rfl rfl rfl

/-- C3 counterexample: a successful delete-account flow (user alice deleting
herself with access token "A", while her still-valid refresh token is "R")
creates a denylist entry only for the access token: the resulting denylist is
exactly the access entry and does not contain the refresh token, refuting the
claim that both tokens are denylisted on every delete-account flow. -/
theorem C3_counterexample :
    (erase_user decode0 db0 alice0 "alice" "A").outcome =
        EraseOutcome.ok "User deleted"
    ∧ (erase_user decode0 db0 alice0 "alice" "A").db.token_blacklist =
        [⟨"A", 100⟩]
    ∧ blacklist_contains
        (erase_user decode0 db0 alice0 "alice" "A").db.token_blacklist "R" =
        false := by
  decide

/-- C3 amended: on logout, denylist entries are created for both the access
and the refresh token presented (whenever they decode with `exp` claims); on
the delete-account flow, only the access token from the Authorization header
is denylisted — the endpoint receives no refresh token and creates no entry
beyond the access one. -/
theorem C3_amended_denylist_flows (decode : JWTDecode)
    (bl : List TokenBlacklistEntry) (access_token refresh_token : String)
    (p q : Payload) (ta tr : Int)
    (ha : decode access_token = .ok p) (hpa : p.exp = some ta)
    (hr : decode refresh_token = .ok q) (hqr : q.exp = some tr) :
    (blacklist_tokens decode bl access_token refresh_token =
        (none, blacklist_insert (blacklist_insert bl access_token ta)
          refresh_token tr)
      ∧ blacklist_contains
          (blacklist_tokens decode bl access_token refresh_token).2
          access_token = true
      ∧ blacklist_contains
          (blacklist_tokens decode bl access_token refresh_token).2
          refresh_token = true)
    ∧ (∀ (db : DB) (current_user : User) (username : String) (u : User),
        db.users.find? (fun v => v.username == username) = some u →
        username = current_user.username →
        erase_user decode db current_user username access_token =
          ⟨EraseOutcome.ok "User deleted",
            { crud_users_delete db username with
                token_blacklist :=
                  blacklist_insert db.token_blacklist access_token ta }⟩) := by
  have hbt : blacklist_tokens decode bl access_token refresh_token =
      (none, blacklist_insert (blacklist_insert bl access_token ta)
        refresh_token tr) := by
    simp [blacklist_tokens, blacklist_token, ha, hpa, hr, hqr]
  refine ⟨⟨hbt, ?_, ?_⟩, ?_⟩
  · rw [hbt]
    exact blacklist_contains_insert_mono _ _ _ _
      (blacklist_contains_insert_self bl access_token ta)
  · rw [hbt]
    exact blacklist_contains_insert_self _ refresh_token tr
  · intro db current_user username u hfind huser
    unfold erase_user
    rw [hfind]
    have hne : (username != current_user.username) = false := by
      simp [huser]
    rw [hne]
    simp only [Bool.false_eq_true, if_false]
    simp [blacklist_token, ha, hpa, crud_users_delete]

theorem C3_amended_denylist_flows_witness :
    blacklist_tokens decode0 [] "A" "R" =
        (none, blacklist_insert (blacklist_insert [] "A" 100) "R" 200)
    ∧ erase_user decode0 db0 alice0 "alice" "A" =
        ⟨EraseOutcome.ok "User deleted",
          { crud_users_delete db0 "alice" with
              token_blacklist := blacklist_insert db0.token_blacklist "A" 100 }⟩ :=
  ⟨(C3_amended_denylist_flows decode0 [] "A" "R"
      ⟨some "alice", some "access", some 100⟩
      ⟨some "alice", some "refresh", some 200⟩ 100 200
      rfl rfl rfl rfl).1.1,
   (C3_amended_denylist_flows decode0 [] "A" "R"
      ⟨some "alice", some "access", some 100⟩
      ⟨some "alice", some "refresh", some 200⟩ 100 200
      rfl rfl rfl rfl).2
     db0 alice0 "alice" alice0 (by decide) rfl⟩

/-- `DefaultRateLimitSettings` from `core/config.py`: the configured default
limit and period; the config-file defaults are 10 and 3600. -/
structure RateLimitSettings where
  DEFAULT_RATE_LIMIT_LIMIT : Nat
  DEFAULT_RATE_LIMIT_PERIOD : Nat
deriving Repr, DecidableEq

/-- The defaults of `DefaultRateLimitSettings` in `core/config.py`. -/
def default_rate_limit_settings : RateLimitSettings := ⟨10, 3600⟩

/-- `crud_tiers.get(db, id=tier_id)`: first tier row with the given id; a
`None` tier id matches nothing. -/
def crud_tiers_get (db : DB) (tier_id : Option Nat) : Option Tier :=
  db.tiers.find? (fun t => some t.id == tier_id)

/-- `crud_rate_limits.get(db, tier_id=tid, path=path)`: first matching rule
row — deterministic first match when duplicates exist. -/
def crud_rate_limits_get (db : DB) (tid : Nat) (path : String) :
    Option RateLimitRule :=
  db.rate_limits.find? (fun r => r.tier_id == tid && r.path == path)

/-- The (limiting key, limit, period) triple the gate enforces. -/
structure QuotaResolution where
  limiting_key : String
  limit : Nat
  period : Nat
deriving Repr, DecidableEq

/-- The quota-resolution portion of `rate_limiter_dependency`
(`api/dependencies.py`): authenticated callers are keyed by their user id and
get their tier rule quota when one matches the path, otherwise the configured
default; anonymous callers are keyed by the client host (or the "unknown"
sentinel) and get the default. -/
def resolve_quota (st : RateLimitSettings) (db : DB) (user : Option User)
    (client_host : Option String) (path : String) : QuotaResolution :=
  match user with
  | some u =>
    let user_key := toString u.id
    match crud_tiers_get db u.tier_id with
    | some tier =>
      match crud_rate_limits_get db tier.id path with
      | some rl => ⟨user_key, rl.limit, rl.period⟩
      | none =>
        ⟨user_key, st.DEFAULT_RATE_LIMIT_LIMIT, st.DEFAULT_RATE_LIMIT_PERIOD⟩
    | none =>
      ⟨user_key, st.DEFAULT_RATE_LIMIT_LIMIT, st.DEFAULT_RATE_LIMIT_PERIOD⟩
  | none =>
    let anon_key :=
      match client_host with
      | some host => host
      | none => "unknown"
    ⟨anon_key, st.DEFAULT_RATE_LIMIT_LIMIT, st.DEFAULT_RATE_LIMIT_PERIOD⟩

/-- Modelled from the spec: the shared counting store backing the Rate Limit
Counter (`core/utils/rate_limit.py` is not among the available sources) — a
counter per (key, path, window id). -/
structure CounterState where
  count : String → String → Nat → Nat

/-- The store with every counter at zero. -/
def counter_empty : CounterState := ⟨fun _ _ _ => 0⟩

/-- Result of one counter call: the limited verdict and the store after the
atomic increment. -/
structure RateLimitStep where
  limited : Bool
  state : CounterState

/-- Modelled from the spec: `rate_limiter.is_rate_limited` (its source is not
among the available files) — fixed-window counting: window id is
`now / period` (integer division), the counter for (key, path, window id) is
atomically incremented, and the caller is limited iff the post-increment
value exceeds the limit. -/
def is_rate_limited (s : CounterState) (now : Nat) (user_id path : String)
    (limit period : Nat) : RateLimitStep :=
  let window_id := now / period
  let value := s.count user_id path window_id + 1
  { limited := decide (value > limit),
    state := ⟨fun k p w =>
      if k == user_id && p == path && w == window_id then value
      else s.count k p w⟩ }

/-- Outcome of `rate_limiter_dependency`: proceed, or raise
`RateLimitException`. -/
inductive GateOutcome where
  | allowed
  | rate_limited (detail : String)
deriving Repr, DecidableEq

/-- `rate_limiter_dependency` from `api/dependencies.py` (after the startup
barrier): resolve the quota, consult the counter, and raise a rate-limit
error iff the counter reports limited. -/
def rate_limiter_dependency (st : RateLimitSettings) (db : DB)
    (user : Option User) (client_host : Option String) (path : String)
    (s : CounterState) (now : Nat) : GateOutcome × CounterState :=
  let q := resolve_quota st db user client_host path
  let step := is_rate_limited s now q.limiting_key path q.limit q.period
  (if step.limited then GateOutcome.rate_limited "Rate limit exceeded."
   else GateOutcome.allowed,
   step.state)

/-- The store after `n` consecutive counter calls with fixed arguments. -/
def iterate_calls (s : CounterState) (now : Nat) (key path : String)
    (limit period : Nat) : Nat → CounterState
  | 0 => s
  | n + 1 =>
    (is_rate_limited (iterate_calls s now key path limit period n) now key
      path limit period).state

/-- Verdict of the `n + 1`-st consecutive counter call (0-indexed `n`). -/
def call_result (s : CounterState) (now : Nat) (key path : String)
    (limit period : Nat) (n : Nat) : Bool :=
  (is_rate_limited (iterate_calls s now key path limit period n) now key path
    limit period).limited

lemma is_rate_limited_count_self (s : CounterState) (now : Nat)
    (key path : String) (limit period : Nat) :
    (is_rate_limited s now key path limit period).state.count key path
        (now / period) =
      s.count key path (now / period) + 1 := by
  simp [is_rate_limited]

lemma is_rate_limited_count_other (s : CounterState) (now : Nat)
    (key path : String) (limit period : Nat) (w : Nat)
    (hw : w ≠ now / period) :
    (is_rate_limited s now key path limit period).state.count key path w =
      s.count key path w := by
  simp [is_rate_limited, hw]

lemma iterate_calls_count (s : CounterState) (now : Nat) (key path : String)
    (limit period : Nat) (n : Nat) :
    (iterate_calls s now key path limit period n).count key path
        (now / period) =
      s.count key path (now / period) + n := by
  induction n with
  | zero => rfl
  | succ n ih =>
    have hstep : iterate_calls s now key path limit period (n + 1) =
        (is_rate_limited (iterate_calls s now key path limit period n) now key
          path limit period).state := rfl
    rw [hstep, is_rate_limited_count_self, ih]
    omega

lemma iterate_calls_count_other (s : CounterState) (now : Nat)
    (key path : String) (limit period : Nat) (n : Nat) (w : Nat)
    (hw : w ≠ now / period) :
    (iterate_calls s now key path limit period n).count key path w =
      s.count key path w := by
  induction n with
  | zero => rfl
  | succ n ih =>
    have hstep : iterate_calls s now key path limit period (n + 1) =
        (is_rate_limited (iterate_calls s now key path limit period n) now key
          path limit period).state := rfl
    rw [hstep, is_rate_limited_count_other _ _ _ _ _ _ w hw, ih]

lemma call_result_eq (s : CounterState) (now : Nat) (key path : String)
    (limit period : Nat) (n : Nat) :
    call_result s now key path limit period n =
      decide (s.count key path (now / period) + n + 1 > limit) := by
  unfold call_result
  have hlim : (is_rate_limited (iterate_calls s now key path limit period n)
      now key path limit period).limited =
      decide ((iterate_calls s now key path limit period n).count key path
        (now / period) + 1 > limit) := rfl
  rw [hlim, iterate_calls_count]

/-- C1: the counter implements fixed-window counting — the window id is
`now / period`; every call increments the counter for (key, path, window id)
and reports limited iff the post-increment value exceeds the limit; starting
from a fresh window, the first `L` calls pass and the `L + 1`-st is limited;
and after any number `m` of calls in one window, a different window with no
prior count again passes exactly `L` calls before limiting. Lastly, the gate
dependency raises the rate-limit error exactly when the counter reports
limited at the resolved quota. -/
theorem C1_fixed_window_counter (s : CounterState) (key path : String)
    (L P t t' m : Nat) (_hL : 0 < L) (_hP : 0 < P)
    (h1 : s.count key path (t / P) = 0)
    (h2 : s.count key path (t' / P) = 0)
    (hw : t' / P ≠ t / P) :
    (∀ s₀ : CounterState,
        ((is_rate_limited s₀ t key path L P).limited = true ↔
          s₀.count key path (t / P) + 1 > L)
        ∧ (is_rate_limited s₀ t key path L P).state.count key path (t / P) =
            s₀.count key path (t / P) + 1)
    ∧ (∀ n, n < L → call_result s t key path L P n = false)
    ∧ call_result s t key path L P L = true
    ∧ (∀ n, n < L →
        call_result (iterate_calls s t key path L P m) t' key path L P n =
          false)
    ∧ call_result (iterate_calls s t key path L P m) t' key path L P L = true
    ∧ (∀ (st : RateLimitSettings) (db : DB) (user : Option User)
        (host : Option String) (s₀ : CounterState),
        (rate_limiter_dependency st db user host path s₀ t).1 =
            GateOutcome.rate_limited "Rate limit exceeded." ↔
          (is_rate_limited s₀ t
            (resolve_quota st db user host path).limiting_key path
            (resolve_quota st db user host path).limit
            (resolve_quota st db user host path).period).limited = true) := by
  refine ⟨?_, ?_, ?_, ?_, ?_, ?_⟩
  · intro s₀
    exact ⟨by simp [is_rate_limited], is_rate_limited_count_self s₀ t key path L P⟩
  · intro n hn
    rw [call_result_eq, h1]
    simp only [decide_eq_false_iff_not]
    omega
  · rw [call_result_eq, h1]
    simp only [decide_eq_true_eq]
    omega
  · intro n hn
    rw [call_result_eq, iterate_calls_count_other _ _ _ _ _ _ _ _ hw, h2]
    simp only [decide_eq_false_iff_not]
    omega
  · rw [call_result_eq, iterate_calls_count_other _ _ _ _ _ _ _ _ hw, h2]
    simp only [decide_eq_true_eq]
    omega
  · intro st db user host s₀
    by_cases hlim : (is_rate_limited s₀ t
        (resolve_quota st db user host path).limiting_key path
        (resolve_quota st db user host path).limit
        (resolve_quota st db user host path).period).limited = true
    · simp [rate_limiter_dependency, hlim]
    · simp [rate_limiter_dependency, hlim]

theorem C1_fixed_window_counter_witness :
    call_result counter_empty 5 "k" "/p" 2 10 0 = false
    ∧ call_result counter_empty 5 "k" "/p" 2 10 1 = false
    ∧ call_result counter_empty 5 "k" "/p" 2 10 2 = true
    ∧ call_result (iterate_calls counter_empty 5 "k" "/p" 2 10 7) 15 "k" "/p"
        2 10 0 = false
    ∧ call_result (iterate_calls counter_empty 5 "k" "/p" 2 10 7) 15 "k" "/p"
        2 10 2 = true := by
  have h := C1_fixed_window_counter counter_empty "k" "/p" 2 10 5 15 7
    (by decide) (by decide) rfl rfl (by decide)
  exact ⟨h.2.1 0 (by decide), h.2.1 1 (by decide), h.2.2.1,
    h.2.2.2.1 0 (by decide), h.2.2.2.2.1⟩

/-- C4: the quota fallback chain of `rate_limiter_dependency` — anonymous
callers are keyed by client host (or the "unknown" sentinel) with the
configured default quota; an identity without a tier, or with a tier lacking
a rule for the path, is keyed by its user id with the default quota (always a
value, never an error); only a matching tier rule overrides the quota; and
the configured defaults are positive, not zero. -/
theorem C4_quota_fallback_chain (st : RateLimitSettings) (db : DB)
    (path : String) (u : User) (host : String) :
    resolve_quota st db none (some host) path =
        ⟨host, st.DEFAULT_RATE_LIMIT_LIMIT, st.DEFAULT_RATE_LIMIT_PERIOD⟩
    ∧ resolve_quota st db none none path =
        ⟨"unknown", st.DEFAULT_RATE_LIMIT_LIMIT, st.DEFAULT_RATE_LIMIT_PERIOD⟩
    ∧ (crud_tiers_get db u.tier_id = none →
        resolve_quota st db (some u) (some host) path =
          ⟨toString u.id, st.DEFAULT_RATE_LIMIT_LIMIT,
            st.DEFAULT_RATE_LIMIT_PERIOD⟩)
    ∧ (∀ tier : Tier, crud_tiers_get db u.tier_id = some tier →
        crud_rate_limits_get db tier.id path = none →
        resolve_quota st db (some u) (some host) path =
          ⟨toString u.id, st.DEFAULT_RATE_LIMIT_LIMIT,
            st.DEFAULT_RATE_LIMIT_PERIOD⟩)
    ∧ (∀ (tier : Tier) (rl : RateLimitRule),
        crud_tiers_get db u.tier_id = some tier →
        crud_rate_limits_get db tier.id path = some rl →
        resolve_quota st db (some u) (some host) path =
          ⟨toString u.id, rl.limit, rl.period⟩)
    ∧ 0 < default_rate_limit_settings.DEFAULT_RATE_LIMIT_LIMIT
    ∧ 0 < default_rate_limit_settings.DEFAULT_RATE_LIMIT_PERIOD := by
  refine ⟨rfl, rfl, ?_, ?_, ?_, by decide, by decide⟩
  · intro h
    simp [resolve_quota, h]
  · intro tier h1 h2
    simp [resolve_quota, h1, h2]
  · intro tier rl h1 h2
    simp [resolve_quota, h1, h2]

theorem C4_quota_fallback_chain_witness :
    resolve_quota default_rate_limit_settings db0 none none "/p" =
        ⟨"unknown", 10, 3600⟩
    ∧ resolve_quota default_rate_limit_settings db0 (some alice0)
        (some "1.2.3.4") "/p" = ⟨"1", 10, 3600⟩ :=
  ⟨(C4_quota_fallback_chain default_rate_limit_settings db0 "/p" alice0
      "1.2.3.4").2.1,
   (C4_quota_fallback_chain default_rate_limit_settings db0 "/p" alice0
      "1.2.3.4").2.2.1 rfl⟩

/-- An exception escaping an operation inside the `try` block of
`get_optional_user`: an `HTTPException` with its status code, or any other
unexpected internal fault. -/
inductive Fault where
  | http (status_code : Nat) (detail : String)
  | other (msg : String)
deriving Repr, DecidableEq

/-- Python `str.lower()` on the ASCII scheme names the gate compares:
character-wise lowercasing. -/
def str_lower (s : String) : String := ⟨s.data.map Char.toLower⟩

/-- Character-level worker for `partition_space`: splits at the first space,
returning the characters before it and the characters after it. -/
def partition_chars : List Char → List Char × List Char
  | [] => ([], [])
  | c :: cs =>
    if c = ' ' then ([], cs)
    else
      let p := partition_chars cs
      (c :: p.1, p.2)

/-- Python `str.partition(" ")` restricted to the pieces the gate uses: the
text before the first space, and everything after it (empty when the string
has no space). -/
def partition_space (s : String) : String × String :=
  let p := partition_chars s.data
  (⟨p.1⟩, ⟨p.2⟩)

/-- `get_optional_user` from `api/dependencies.py`: resolves the caller from
the Authorization header or downgrades to anonymous (`none`). The called
operations `verify_token` and `get_current_user` are passed as oracles that
may also raise, covering unexpected internal faults; the two `except`
handlers both return `None`. -/
def get_optional_user
    (verify : String → Except Fault (Option TokenData))
    (current : String → Except Fault User)
    (authorization : Option String) : Option User :=
  match authorization with
  | none => none
  | some token =>
    let body : Except Fault (Option User) :=
      if str_lower (partition_space token).1 != "bearer"
          || (partition_space token).2 == "" then
        Except.ok none
      else
        match verify (partition_space token).2 with
        | .error f => .error f
        | .ok none => .ok none
        | .ok (some _) =>
          match current (partition_space token).2 with
          | .error f => .error f
          | .ok user => .ok (some user)
    match body with
    | .ok r => r
    | .error _ => none

/-- C5: optional authentication never rejects and never raises — the missing
header, a non-bearer scheme, an empty token value, a failed verification, a
fault raised by verification, and a fault raised by the mandatory resolution
step all produce the anonymous result `none`; no case propagates an
exception. -/
theorem C5_optional_auth_never_raises
    (verify : String → Except Fault (Option TokenData))
    (current : String → Except Fault User)
    (authorization : Option String) :
    (authorization = none → get_optional_user verify current authorization = none)
    ∧ (∀ h, authorization = some h →
        str_lower (partition_space h).1 ≠ "bearer" →
        get_optional_user verify current authorization = none)
    ∧ (∀ h, authorization = some h → (partition_space h).2 = "" →
        get_optional_user verify current authorization = none)
    ∧ (∀ h, authorization = some h →
        verify (partition_space h).2 = Except.ok none →
        get_optional_user verify current authorization = none)
    ∧ (∀ h f, authorization = some h →
        verify (partition_space h).2 = Except.error f →
        get_optional_user verify current authorization = none)
    ∧ (∀ h f, authorization = some h →
        current (partition_space h).2 = Except.error f →
        get_optional_user verify current authorization = none) := by
  refine ⟨?_, ?_, ?_, ?_, ?_, ?_⟩
  · intro ha
    subst ha
    rfl
  · intro h ha hb
    subst ha
    simp [get_optional_user, hb]
  · intro h ha hb
    subst ha
    simp [get_optional_user, hb]
  · intro h ha hv
    subst ha
    by_cases hc : (str_lower (partition_space h).1 != "bearer"
        || (partition_space h).2 == "") = true
    · simp [get_optional_user, hc]
    · simp [get_optional_user, hc, hv]
  · intro h f ha hv
    subst ha
    by_cases hc : (str_lower (partition_space h).1 != "bearer"
        || (partition_space h).2 == "") = true
    · simp [get_optional_user, hc]
    · simp [get_optional_user, hc, hv]
  · intro h f ha hcur
    subst ha
    by_cases hc : (str_lower (partition_space h).1 != "bearer"
        || (partition_space h).2 == "") = true
    · simp [get_optional_user, hc]
    · cases hv : verify (partition_space h).2 with
      | error g => simp [get_optional_user, hc, hv]
      | ok o =>
        cases o with
        | none => simp [get_optional_user, hc, hv]
        | some td => simp [get_optional_user, hc, hv, hcur]

theorem C5_optional_auth_never_raises_witness :
    get_optional_user (fun _ => Except.ok none)
        (fun _ => Except.error (Fault.other "boom")) none = none
    ∧ get_optional_user (fun _ => Except.ok none)
        (fun _ => Except.error (Fault.other "boom"))
        (some "Basic abc") = none
    ∧ get_optional_user (fun _ => Except.ok none)
        (fun _ => Except.error (Fault.other "boom"))
        (some "Bearer tok") = none
    ∧ get_optional_user (fun _ => Except.ok (some ⟨"alice"⟩))
        (fun _ => Except.error (Fault.other "boom"))
        (some "Bearer tok") = none :=
  ⟨(C5_optional_auth_never_raises (fun _ => Except.ok none)
      (fun _ => Except.error (Fault.other "boom")) none).1 rfl,
   (C5_optional_auth_never_raises (fun _ => Except.ok none)
      (fun _ => Except.error (Fault.other "boom")) (some "Basic abc")).2.1
     "Basic abc" rfl (by decide),
   (C5_optional_auth_never_raises (fun _ => Except.ok none)
      (fun _ => Except.error (Fault.other "boom")) (some "Bearer tok")).2.2.2.1
     "Bearer tok" rfl rfl,
   (C5_optional_auth_never_raises (fun _ => Except.ok (some ⟨"alice"⟩))
      (fun _ => Except.error (Fault.other "boom"))
      (some "Bearer tok")).2.2.2.2.2 "Bearer tok" (Fault.other "boom") rfl rfl⟩

/-- One step of the startup sequence inside `lifespan_factory`
(`core/setup.py`), in source order. -/
inductive LifespanEvent where
  | set_barrier_attr
  | set_threadpool_tokens
  | create_redis_cache_pool
  | create_redis_queue_pool
  | create_redis_rate_limit_pool
  | create_tables
  | signal_barrier
deriving Repr, DecidableEq

/-- The startup events of `lifespan_factory` before the `yield`, in source
order: the `initialization_complete` event is created and assigned to
`app.state` first, then the conditional pool and table setup runs, and only
then is the event signalled. The four flags are the `isinstance` checks and
`create_tables_on_start`. -/
def lifespan_startup_events (redis_cache redis_queue redis_rate_limit
    create_tables_on_start : Bool) : List LifespanEvent :=
  [LifespanEvent.set_barrier_attr, LifespanEvent.set_threadpool_tokens]
    ++ (if redis_cache then [LifespanEvent.create_redis_cache_pool] else [])
    ++ (if redis_queue then [LifespanEvent.create_redis_queue_pool] else [])
    ++ (if redis_rate_limit then [LifespanEvent.create_redis_rate_limit_pool]
        else [])
    ++ (if create_tables_on_start then [LifespanEvent.create_tables] else [])
    ++ [LifespanEvent.signal_barrier]

/-- The `app.state` attribute the gate probes with `hasattr`: absent, or an
asyncio event that is set or not. -/
structure AppState where
  initialization_complete : Option Bool
deriving Repr, DecidableEq

/-- A suspension the gate may perform before enforcing the quota. -/
inductive GateAction where
  | wait_barrier
deriving Repr, DecidableEq

/-- Lines 78-79 of `api/dependencies.py`: `rate_limiter_dependency` waits on
`app.state.initialization_complete` only when that attribute exists;
otherwise it proceeds straight to quota resolution. -/
def rate_limiter_prelude (st : AppState) : List GateAction :=
  match st.initialization_complete with
  | some _ => [GateAction.wait_barrier]
  | none => []

/-- C10: the startup barrier is conditional and correctly ordered — the gate
suspends on the barrier exactly when the `initialization_complete` attribute
exists on the application state (and proceeds immediately when it is absent),
and in every application built via `lifespan_factory` the attribute is
assigned as the first startup event while the barrier is signalled last, so
the attribute always exists before the signal. -/
theorem C10_startup_barrier :
    (∀ st : AppState,
        rate_limiter_prelude st = [] ↔ st.initialization_complete = none)
    ∧ (∀ a b c d : Bool,
        (lifespan_startup_events a b c d).head? =
            some LifespanEvent.set_barrier_attr
        ∧ (lifespan_startup_events a b c d).getLast? =
            some LifespanEvent.signal_barrier
        ∧ (lifespan_startup_events a b c d).indexOf
              LifespanEvent.set_barrier_attr <
            (lifespan_startup_events a b c d).indexOf
              LifespanEvent.signal_barrier) := by
  constructor
  · intro st
    cases h : st.initialization_complete <;> simp [rate_limiter_prelude, h]
  · decide

end Talkify
